import Mathlib

/-!
Verification of the MonitoRSS feed-connection management and delivery-accounting
core against its natural-language specification.

The embedding is shallow: each service method becomes a pure Lean function over
explicit state (feed store, failure-record store, delivery-record list) and an
explicit environment for the remote Discord API calls. Timestamps are integers
(seconds); `now` is passed explicitly.
-/

namespace MonitoRSS

/-! ## Delivery accounting (services/feed-handler delivery-record.service.ts) -/

/-- The `ArticleDeliveryStatus` values used by the delivery-record service. -/
inductive ArticleDeliveryStatus where
  | sent
  | failed
  | rejected
  deriving Repr, DecidableEq

/-- The tagged article-delivery outcome handed to `store`: `Sent` carries no
error data, `Failed` and `Rejected` carry an error code and an internal
diagnostic message. -/
inductive ArticleDeliveryState where
  | sent
  | failed (errorCode : String) (internalMessage : String)
  | rejected (errorCode : String) (internalMessage : String)
  deriving Repr, DecidableEq

/-- A persisted `DeliveryRecord` row: subscription (feed) id, status, optional
error fields, creation timestamp (seconds). -/
structure DeliveryRecord where
  feed_id : String
  status : ArticleDeliveryStatus
  error_code : Option String := none
  internal_message : Option String := none
  created_at : Int
  deriving Repr, DecidableEq

/-- Embedding of `DeliveryRecordService.store`: builds the row persisted for one delivery
attempt. `Sent` populates no error fields; `Failed`/`Rejected` carry both. -/
def buildDeliveryRecord (feedId : String) (articleState : ArticleDeliveryState)
    (now : Int) : DeliveryRecord :=
  match articleState with
  | .sent =>
      { feed_id := feedId, status := .sent, created_at := now }
  | .failed errorCode internalMessage =>
      { feed_id := feedId, status := .failed, error_code := some errorCode,
        internal_message := some internalMessage, created_at := now }
  | .rejected errorCode internalMessage =>
      { feed_id := feedId, status := .rejected, error_code := some errorCode,
        internal_message := some internalMessage, created_at := now }

/-- Embedding of `DeliveryRecordService.store`: appends the built row to the append-only
record list. -/
def storeDeliveryRecord (records : List DeliveryRecord) (feedId : String)
    (articleState : ArticleDeliveryState) (now : Int) : List DeliveryRecord :=
  records ++ [buildDeliveryRecord feedId articleState now]

/-- The filter issued by `countDeliveriesInPastTimeframe`: same feed id, status
in `{Sent, Rejected}`, and `created_at >= now - secondsInPast` (the query has
no upper bound on `created_at`). -/
def inPastTimeframe (feedId : String) (secondsInPast : Int) (now : Int)
    (r : DeliveryRecord) : Bool :=
  r.feed_id == feedId
    && (r.status == .sent || r.status == .rejected)
    && now - secondsInPast ≤ r.created_at

/-- Embedding of `DeliveryRecordService.countDeliveriesInPastTimeframe`: counts rows
matching `inPastTimeframe`. -/
def countDeliveriesInPastTimeframe (records : List DeliveryRecord)
    (feedId : String) (secondsInPast : Int) (now : Int) : Nat :=
  (records.filter (inPastTimeframe feedId secondsInPast now)).length

/-! ## Feed subscription entity and feeds service

`feeds.service.ts` itself is not among the sources; only its integration
tests and its controller are. The definitions in this section are therefore
modelled from the spec (and, where the tests pin concrete behaviour, from the
in-repo integration tests). -/

/-- Derived feed status. -/
inductive FeedStatus where
  | ok
  | failed
  deriving Repr, DecidableEq

/-- A `FailRecord` document: keyed by the feed's source URL (its `_id`),
holding the failure reason, an alerted flag, and the failure timestamp. -/
structure FailRecord where
  reason : String
  alerted : Bool
  failedAt : Int
  deriving Repr, DecidableEq

/-- The fail-record collection, keyed by source URL (`_id`), at most one
record per URL. -/
abbrev FailRecordStore := String → Option FailRecord

/-- The 18-hour status threshold, in seconds. -/
def failThresholdSeconds : Int := 18 * 60 * 60

/-- Modelled from the spec: the derived-status rule of the missing
`FeedsService` (`feeds.service.ts` is not among the sources). The direction of
the 18-hour threshold follows the in-repo integration tests, which require
that fail records within the past 18 hours do NOT yield the failed status
(a record `failedAt` 2 hours ago gives OK) while an old record (from 1990)
gives FAILED: status is FAILED exactly when a fail record for the
subscription's URL exists and is older than 18 hours. -/
def deriveFeedStatus (failRecords : FailRecordStore) (url : String)
    (now : Int) : FeedStatus :=
  match failRecords url with
  | none => .ok
  | some record =>
      if record.failedAt + failThresholdSeconds < now then .failed else .ok

/-- The embedded webhook pointer on a feed document. -/
structure FeedWebhook where
  id : String
  deriving Repr, DecidableEq

/-- A reference to a Discord channel stored inside a connection's details. -/
structure ChannelRef where
  id : String
  deriving Repr, DecidableEq

/-- A JavaScript value provided for a connection's `filters` field: either a
nullish (falsy) value or an actual filters object, kept opaque as its
expression payload. -/
inductive FiltersVal where
  | jsNull
  | expr (e : String)
  deriving Repr, DecidableEq

/-- JavaScript truthiness of a provided filters value. -/
def FiltersVal.truthy : FiltersVal → Bool
  | .jsNull => false
  | .expr _ => true

/-- Details payload of a Discord channel connection (embeds kept opaque). -/
structure DiscordChannelConnectionDetails where
  channel : ChannelRef
  content : Option String := none
  embeds : List String := []
  deriving Repr, DecidableEq

/-- A Discord channel connection embedded in a feed document. -/
structure DiscordChannelConnection where
  id : String
  name : String
  filters : Option FiltersVal := none
  details : DiscordChannelConnectionDetails
  deriving Repr, DecidableEq

/-- The webhook payload stored inside a webhook connection's details. -/
structure WebhookRef where
  id : String
  name : Option String := none
  iconUrl : Option String := none
  token : String
  deriving Repr, DecidableEq

/-- Details payload of a Discord webhook connection. -/
structure DiscordWebhookConnectionDetails where
  webhook : WebhookRef
  embeds : List String := []
  deriving Repr, DecidableEq

/-- A Discord webhook connection embedded in a feed document. -/
structure DiscordWebhookConnection where
  id : String
  name : String
  details : DiscordWebhookConnectionDetails
  deriving Repr, DecidableEq

/-- The typed connection sub-lists embedded in a feed document. -/
structure FeedConnections where
  discordChannels : List DiscordChannelConnection := []
  discordWebhooks : List DiscordWebhookConnection := []
  deriving Repr, DecidableEq

/-- A feed subscription document. -/
structure Feed where
  id : String
  url : String
  title : String := ""
  guild : String := ""
  text : String := ""
  webhook : Option FeedWebhook := none
  addedAt : Int := 0
  connections : FeedConnections := {}
  deriving Repr, DecidableEq

/-- The feed collection (document order preserved). -/
abbrev FeedStore := List Feed

/-- Updates the first element satisfying `p` (the single-document /
positional-`$` conditional-update primitive of the store). -/
def updateFirst (p : α → Bool) (u : α → α) : List α → List α
  | [] => []
  | x :: xs => if p x then u x :: xs else x :: updateFirst p u xs

/-- Embedding of `findOneAndUpdate` with `new: true`: updates the first document matching
`p` and returns the updated document, or `none` (and no change) when no
document matches. -/
def findOneAndUpdate (p : Feed → Bool) (u : Feed → Feed) (store : FeedStore) :
    Option Feed × FeedStore :=
  match List.find? p store with
  | none => (none, store)
  | some f => (some (u f), updateFirst p u store)

/-- The feeds-service state: the feed collection plus the fail-record
collection. -/
structure FeedsDb where
  feeds : FeedStore
  failRecords : FailRecordStore

/-- Patch accepted by `FeedsService.updateOne`: `text` if defined, and an
optional webhook pointer whose empty id means removal. -/
structure UpdateFeedPatch where
  text : Option String := none
  webhook : Option FeedWebhook := none
  deriving Repr, DecidableEq

/-- Modelled from the spec: the field merge of the missing
`FeedsService.updateOne` (`feeds.service.ts` is not among the sources) —
merges `text` when defined; a provided webhook pointer with an empty id
removes the whole embedded webhook object, a non-empty id replaces it, and an
absent webhook patch field leaves the stored webhook untouched. Matches the
in-repo integration tests (`updates the text`, `removes the webhook object if
webhook id is empty`, `does not update the text if undefined is passed`,
`does not persist any old webhook data if webhook is overwritten`). -/
def applyFeedUpdate (feed : Feed) (patch : UpdateFeedPatch) : Feed :=
  let feed :=
    match patch.text with
    | some t => { feed with text := t }
    | none => feed
  match patch.webhook with
  | none => feed
  | some w =>
      if w.id = "" then { feed with webhook := none }
      else { feed with webhook := some w }

/-- Modelled from the spec: the missing `FeedsService.updateOne` — applies
the field merge to the document matching `id` and returns the updated entity,
or `none` when no document matched (leaving the store unchanged). -/
def updateOne (db : FeedsDb) (id : String) (patch : UpdateFeedPatch) :
    Option Feed × FeedsDb :=
  match List.find? (fun f => f.id == id) db.feeds with
  | none => (none, db)
  | some f =>
      (some (applyFeedUpdate f patch),
        { db with
          feeds := updateFirst (fun g => g.id == id)
            (fun g => applyFeedUpdate g patch) db.feeds })

/-- Failure of `refresh` when the subscription id does not exist. -/
inductive RefreshError where
  | feedNotFound
  deriving Repr, DecidableEq

/-- Deletes the fail record keyed by `url` from the fail-record collection. -/
def deleteFailRecord (store : FailRecordStore) (url : String) :
    FailRecordStore :=
  fun u => if u == url then none else store u

/-- Modelled from the spec: the missing `FeedsService.refresh`
(`feeds.service.ts` is not among the sources) — fails when the subscription
id does not exist; otherwise deletes any fail record keyed by the
subscription's URL and returns the entity together with its (re-derived,
hence OK) status. -/
def refresh (db : FeedsDb) (id : String) (now : Int) :
    Except RefreshError ((Feed × FeedStatus) × FeedsDb) :=
  match List.find? (fun f => f.id == id) db.feeds with
  | none => .error .feedNotFound
  | some f =>
      let db' := { db with failRecords := deleteFailRecord db.failRecords f.url }
      .ok ((f, deriveFeedStatus db'.failRecords f.url now), db')

/-! ## Feed connections service (backend-api feed-connections.service.ts) -/

/-- A Discord channel as returned by the remote API. -/
structure DiscordChannel where
  id : String
  guild_id : String
  deriving Repr, DecidableEq

/-- A Discord webhook as returned by the remote API. `kindUsableByBot` stands
for the webhook kind check performed by `discordWebhooksService.canBeUsedByBot`
(that service is not among the sources; the spec says the check is whether the
webhook's kind can send messages on behalf of the bot actor). -/
structure DiscordWebhook where
  id : String
  guild_id : String
  token : String
  kindUsableByBot : Bool
  deriving Repr, DecidableEq

/-- Outcome of the remote channel fetch (`feedsService.canUseChannel`):
success, a `DiscordAPIError` with a status code, or any other failure (kept
opaque by a tag). -/
inductive ChannelFetchResult where
  | success (channel : DiscordChannel)
  | apiError (statusCode : Nat)
  | otherFailure (tag : String)
  deriving Repr, DecidableEq

/-- The remote Discord collaborators of the connection service:
`canUseChannel (accessToken) (channelId)`, `getWebhook (webhookId)`, and
`userManagesGuild (accessToken) (guildId)`. -/
structure DiscordEnv where
  canUseChannel : String → String → ChannelFetchResult
  getWebhook : String → Option DiscordWebhook
  userManagesGuild : String → String → Bool

/-- The named exceptions raised by the connection service (the `internalError`
constructor stands for the generic `throw new Error(message)`). -/
inductive ConnError where
  | webhookNonexistent
  | webhookInvalidType
  | webhookNotOwned
  | webhookMissingUserPerm
  | missingDiscordChannel
  | discordChannelPermissions
  | discordChannelNotOwned
  | discordAPIError (statusCode : Nat)
  | otherFailure (tag : String)
  | internalError (message : String)
  deriving Repr, DecidableEq

/-- The value of `HttpStatus.NOT_FOUND`. -/
def httpNotFound : Nat := 404

/-- The value of `HttpStatus.FORBIDDEN`. -/
def httpForbidden : Nat := 403

/-- Embedding of `assertDiscordChannelCanBeUsed`: fetches the channel with the actor's
credential; maps remote not-found to `missingDiscordChannel`, remote
forbidden to `discordChannelPermissions`; fails with
`discordChannelNotOwned` when the channel's guild differs from the expected
guild; any other failure propagates unchanged. -/
def assertDiscordChannelCanBeUsed (env : DiscordEnv)
    (accessToken channelId guildId : String) : Except ConnError DiscordChannel :=
  match env.canUseChannel accessToken channelId with
  | .success channel =>
      if channel.guild_id ≠ guildId then .error .discordChannelNotOwned
      else .ok channel
  | .apiError statusCode =>
      if statusCode = httpNotFound then .error .missingDiscordChannel
      else if statusCode = httpForbidden then .error .discordChannelPermissions
      else .error (.discordAPIError statusCode)
  | .otherFailure tag => .error (.otherFailure tag)

/-- The message of the generic error thrown when a created connection cannot
be located after the write. -/
def createFailureMessage : String :=
  "Connection was not successfuly created. Check insertion statement and schemas are correct."

/-- The message of the generic error thrown when an updated connection cannot
be located after the write. -/
def updateFailureMessage : String :=
  "Connection was not successfuly updated. Check insertion statement and schemas are correct."

/-- Input of `createDiscordChannelConnection`. -/
structure CreateChannelConnInput where
  feedId : String
  name : String
  channelId : String
  userAccessToken : String
  guildId : String
  deriving Repr, DecidableEq

/-- The array-element condition `connection.id == connectionId` used both by
the conditional update query and by the post-write lookup. -/
def connMatches (connectionId : String) (c : DiscordChannelConnection) :
    Bool :=
  c.id == connectionId

/-- The fresh channel connection pushed by `createDiscordChannelConnection`:
the generated id, the requested name, a details payload holding the channel
reference and an empty embed list. -/
def newChannelConn (input : CreateChannelConnInput) (connectionId : String) :
    DiscordChannelConnection :=
  { id := connectionId, name := input.name,
    details := { channel := { id := input.channelId }, embeds := [] } }

/-- The `$push` document of `createDiscordChannelConnection`, applied to the
matched feed. -/
def pushChannelConn (newConn : DiscordChannelConnection) (f : Feed) : Feed :=
  { f with connections := { f.connections with
      discordChannels := f.connections.discordChannels ++ [newConn] } }

/-- Embedding of `createDiscordChannelConnection`: verifies the channel, then pushes a
fresh channel connection (empty embed list) onto the matching feed document
and re-reads it by the generated `connectionId`; throws the generic creation
error when the re-read fails. Returns the result and the possibly-updated
store. -/
def createDiscordChannelConnection (env : DiscordEnv) (store : FeedStore)
    (input : CreateChannelConnInput) (connectionId : String) :
    Except ConnError DiscordChannelConnection × FeedStore :=
  match assertDiscordChannelCanBeUsed env input.userAccessToken
      input.channelId input.guildId with
  | .error e => (.error e, store)
  | .ok _ =>
      let (updated, store') := findOneAndUpdate (fun f => f.id == input.feedId)
        (pushChannelConn (newChannelConn input connectionId))
        store
      match updated.bind (fun f =>
          List.find? (connMatches connectionId)
            f.connections.discordChannels) with
      | none => (.error (.internalError createFailureMessage), store')
      | some created => (.ok created, store')

/-- The verification steps of `createDiscordWebhookConnection`, in source
order. -/
inductive WebhookCheck where
  | existence
  | webhookType
  | ownership
  | userPermission
  deriving Repr, DecidableEq

/-- Input of `createDiscordWebhookConnection`. -/
structure CreateWebhookConnInput where
  accessToken : String
  feedId : String
  guildId : String
  name : String
  webhookId : String
  webhookName : Option String := none
  webhookIconUrl : Option String := none
  deriving Repr, DecidableEq

/-- Embedding of `createDiscordWebhookConnection`: runs the four verification checks in
source order (existence, type, ownership, user permission), short-circuiting
on the first failure; on success pushes a fresh webhook connection (capturing
the webhook's delivery token) and re-reads it. The third component records
which checks were evaluated, in order. -/
def createDiscordWebhookConnection (env : DiscordEnv) (store : FeedStore)
    (input : CreateWebhookConnInput) (connectionId : String) :
    Except ConnError DiscordWebhookConnection × FeedStore × List WebhookCheck :=
  match env.getWebhook input.webhookId with
  | none => (.error .webhookNonexistent, store, [.existence])
  | some webhook =>
      if ¬ webhook.kindUsableByBot then
        (.error .webhookInvalidType, store, [.existence, .webhookType])
      else if webhook.guild_id ≠ input.guildId then
        (.error .webhookNotOwned, store,
          [.existence, .webhookType, .ownership])
      else if ¬ env.userManagesGuild input.accessToken input.guildId then
        (.error .webhookMissingUserPerm, store,
          [.existence, .webhookType, .ownership, .userPermission])
      else
        let webhookRef : WebhookRef :=
          { iconUrl := input.webhookIconUrl, id := input.webhookId,
            name := input.webhookName, token := webhook.token }
        let newConn : DiscordWebhookConnection :=
          { id := connectionId, name := input.name,
            details := { embeds := [], webhook := webhookRef } }
        let (updated, store') := findOneAndUpdate
          (fun f => f.id == input.feedId)
          (fun f => { f with connections := { f.connections with
              discordWebhooks := f.connections.discordWebhooks ++ [newConn] } })
          store
        match updated.bind (fun f =>
            List.find? (fun c => c.id == connectionId)
              f.connections.discordWebhooks) with
        | none => (.error (.internalError createFailureMessage), store',
            [.existence, .webhookType, .ownership, .userPermission])
        | some created => (.ok created, store',
            [.existence, .webhookType, .ownership, .userPermission])

/-- The nested `details` patch of `updateDiscordChannelConnection`: only the
keys present in the object are written (as dotted `$set` paths). -/
structure ChannelDetailsPatch where
  channel : Option ChannelRef := none
  content : Option String := none
  embeds : Option (List String) := none
  deriving Repr, DecidableEq

/-- The `updates` object of `UpdateDiscordChannelConnectionInput`. -/
structure UpdateChannelConnUpdates where
  filters : Option FiltersVal := none
  name : Option String := none
  details : Option ChannelDetailsPatch := none
  deriving Repr, DecidableEq

/-- Input of `updateDiscordChannelConnection`. -/
structure UpdateChannelConnInput where
  accessToken : String
  updates : UpdateChannelConnUpdates
  guildId : String
  deriving Repr, DecidableEq

/-- The dotted `$set` entries built from `updates.details` (one
`connections.discordChannels.$.details.<key>` entry per present key), applied
to the stored details. -/
def applyDetailsPatch (details : DiscordChannelConnectionDetails)
    (patch : ChannelDetailsPatch) : DiscordChannelConnectionDetails :=
  { channel := patch.channel.getD details.channel,
    content :=
      match patch.content with
      | some c => some c
      | none => details.content,
    embeds := patch.embeds.getD details.embeds }

/-- The full `$set` document of `updateDiscordChannelConnection` applied to
the positionally matched connection: the flattened details entries, plus the
`filters` entry only when `updates.filters` is truthy, plus the `name` entry
only when `updates.name` is truthy (a provided empty string is falsy and is
spread away). -/
def applyConnUpdates (conn : DiscordChannelConnection)
    (updates : UpdateChannelConnUpdates) : DiscordChannelConnection :=
  { conn with
    details := applyDetailsPatch conn.details (updates.details.getD {}),
    filters :=
      match updates.filters with
      | some v => if v.truthy then some v else conn.filters
      | none => conn.filters,
    name :=
      match updates.name with
      | some s => if s ≠ "" then s else conn.name
      | none => conn.name }

/-- The conditional query of `updateDiscordChannelConnection`: the feed id
must match and the feed's channel-connection list must contain the connection
id. -/
def feedConnQuery (feedId connectionId : String) (f : Feed) : Bool :=
  f.id == feedId &&
    f.connections.discordChannels.any (connMatches connectionId)

/-- The `$set` document of `updateDiscordChannelConnection` applied to the
matched feed: the positionally (`$`) matched connection — the first one with
the connection id — is replaced by its merge with the updates. -/
def connUpdateDoc (connectionId : String) (updates : UpdateChannelConnUpdates)
    (f : Feed) : Feed :=
  { f with connections := { f.connections with
      discordChannels := updateFirst (connMatches connectionId)
        (fun c => applyConnUpdates c updates)
        f.connections.discordChannels } }

/-- The store mutation of `updateDiscordChannelConnection`: a conditional
update matching the feed id together with the presence of the connection id
in its channel list, applying the `$set` document to the first (positional
`$`) matching connection, then locating the updated connection; the generic
update error is thrown when that lookup fails — in particular when no
document matched the conditional query. -/
def runChannelConnUpdate (store : FeedStore) (feedId connectionId : String)
    (updates : UpdateChannelConnUpdates) :
    Except ConnError DiscordChannelConnection × FeedStore :=
  let (updated, store') := findOneAndUpdate
    (feedConnQuery feedId connectionId)
    (connUpdateDoc connectionId updates)
    store
  match updated.bind (fun f =>
      List.find? (connMatches connectionId)
        f.connections.discordChannels) with
  | none => (.error (.internalError updateFailureMessage), store')
  | some conn => (.ok conn, store')

/-- Embedding of `updateDiscordChannelConnection`: re-runs channel verification against the
new destination and the provided guild id only when the patch contains a
`details.channel`; then delegates to the conditional store update. The third
component records whether the verifier was invoked. -/
def updateDiscordChannelConnection (env : DiscordEnv) (store : FeedStore)
    (feedId connectionId : String) (input : UpdateChannelConnInput) :
    Except ConnError DiscordChannelConnection × FeedStore × Bool :=
  match input.updates.details.bind (fun d => d.channel) with
  | some channelRef =>
      match assertDiscordChannelCanBeUsed env input.accessToken
          channelRef.id input.guildId with
      | .error e => (.error e, store, true)
      | .ok _ =>
          let (res, store') :=
            runChannelConnUpdate store feedId connectionId input.updates
          (res, store', true)
  | none =>
      let (res, store') :=
        runChannelConnUpdate store feedId connectionId input.updates
      (res, store', false)

/-! ### The ownership invariant -/

/-- The destination channel `chId` is verified usable for guild `guild`: the
remote fetch with `token` succeeds and the returned channel's parent guild is
`guild`. -/
def channelOwnedBy (env : DiscordEnv) (token guild chId : String) : Prop :=
  ∃ c, env.canUseChannel token chId = .success c ∧ c.guild_id = guild

/-- Every channel connection of `f` points at a destination owned by `f`'s
guild (under `env` and `token`). -/
def feedConnsOwned (env : DiscordEnv) (token : String) (f : Feed) : Prop :=
  ∀ conn ∈ f.connections.discordChannels,
    channelOwnedBy env token f.guild conn.details.channel.id

/-! ### Concrete witness inputs -/

/-- C6: for every subscription id and window, `countDeliveriesInPastTimeframe`
returns exactly the number of delivery records for that id whose status is
`Sent` or `Rejected` and whose creation time lies within
`[now - windowSeconds, now]`; `Failed` records and records created before the
window start are never counted. (The query has no upper time bound, so the
hypothesis that no record postdates `now` — true of the append-only store —
closes the interval.) -/
theorem countRecent_counts_sent_rejected_in_window
    (records : List DeliveryRecord) (feedId : String)
    (secondsInPast now : Int)
    (hpast : ∀ r ∈ records, r.created_at ≤ now) :
    countDeliveriesInPastTimeframe records feedId secondsInPast now =
      (records.filter (fun r =>
        r.feed_id == feedId
          && (r.status == .sent || r.status == .rejected)
          && (decide (now - secondsInPast ≤ r.created_at)
              && decide (r.created_at ≤ now)))).length := by
  unfold countDeliveriesInPastTimeframe
  congr 1
  apply List.filter_congr
  intro r hr
  have h : r.created_at ≤ now := hpast r hr
  simp [inPastTimeframe, h]

/-- Delivery records realizing the spec's worked example: one `Sent` record
10 seconds before `now = 1000`, one `Rejected` 20 seconds before, one `Sent`
120 seconds before. -/
def c6Records : List DeliveryRecord :=
  [ { feed_id := "feed-1", status := .sent, created_at := 990 },
    { feed_id := "feed-1", status := .rejected, created_at := 980 },
    { feed_id := "feed-1", status := .sent, created_at := 880 } ]

/-- C6 witness: on the spec's worked example the count over a 60-second
window is 2. -/
theorem countRecent_witness :
    countDeliveriesInPastTimeframe c6Records "feed-1" 60 1000 =
      (c6Records.filter (fun r =>
        r.feed_id == "feed-1"
          && (r.status == .sent || r.status == .rejected)
          && (decide ((1000 : Int) - 60 ≤ r.created_at)
              && decide (r.created_at ≤ (1000 : Int))))).length ∧
    countDeliveriesInPastTimeframe c6Records "feed-1" 60 1000 = 2 :=
  ⟨countRecent_counts_sent_rejected_in_window c6Records "feed-1" 60 1000
      (by decide),
    by decide⟩

/-- The fail-record store of the C1 counterexample: one record for URL "u",
failed 2 hours (7200 seconds) before `now = 360000`. -/
def c1Store : FailRecordStore :=
  fun url =>
    if url == "u" then
      some { reason := "r", alerted := false, failedAt := 360000 - 7200 }
    else none

/-- C1 counterexample: a fail record with `failedAt` 2 hours ago (age 7200 s,
below the 18-hour threshold) yields status OK, not FAILED as the claim
states — matching the in-repo test `does not return failed status for fail
records within the past 18 hours`. -/
theorem deriveFeedStatus_two_hours_not_failed :
    ((360000 : Int) - (360000 - 7200) < failThresholdSeconds) ∧
    deriveFeedStatus c1Store "u" 360000 = .ok ∧
    deriveFeedStatus c1Store "u" 360000 ≠ .failed := by
  refine ⟨by decide, by decide, by decide⟩

/-- C1 (amended): the derived status is FAILED exactly when a fail record for
the subscription's URL exists whose age exceeds the 18-hour threshold, and OK
otherwise; in particular a record with `failedAt` 2 hours ago yields OK and
one 19 hours ago yields FAILED. -/
theorem deriveFeedStatus_failed_iff_old_record :
    (∀ (failRecords : FailRecordStore) (url : String) (now : Int),
      (deriveFeedStatus failRecords url now = .failed ↔
        ∃ r, failRecords url = some r ∧
          r.failedAt + failThresholdSeconds < now) ∧
      (deriveFeedStatus failRecords url now = .ok ↔
        ¬ ∃ r, failRecords url = some r ∧
          r.failedAt + failThresholdSeconds < now)) ∧
    deriveFeedStatus c1Store "u" 360000 = .ok ∧
    deriveFeedStatus
      (fun url => if url == "u" then
        some { reason := "r", alerted := false,
               failedAt := (360000 : Int) - 19 * 3600 }
        else none) "u" 360000 = .failed := by
  refine ⟨?_, by decide, by decide⟩
  intro failRecords url now
  unfold deriveFeedStatus
  cases hrec : failRecords url with
  | none => simp
  | some r =>
      dsimp only
      constructor
      · constructor
        · intro h
          refine ⟨r, rfl, ?_⟩
          by_contra hlt
          rw [if_neg hlt] at h
          exact FeedStatus.noConfusion h
        · rintro ⟨r', hr', hlt⟩
          cases Option.some.inj hr'
          rw [if_pos hlt]
      · constructor
        · intro h
          rintro ⟨r', hr', hlt⟩
          cases Option.some.inj hr'
          rw [if_pos hlt] at h
          exact FeedStatus.noConfusion h
        · intro h
          rw [if_neg (fun hlt => h ⟨r, rfl, hlt⟩)]

/-- C7: `updateOne(id, patch)` merges `text` only when defined in the patch;
a patch whose webhook id is the empty string removes the entire embedded
webhook object, while an absent webhook patch field leaves the stored webhook
untouched; the call returns the updated entity, or none when no document
matches the id. -/
theorem updateOne_merge_semantics (db : FeedsDb) (id : String)
    (patch : UpdateFeedPatch) :
    (List.find? (fun f => f.id == id) db.feeds = none →
      (updateOne db id patch).1 = none ∧
      (updateOne db id patch).2.feeds = db.feeds) ∧
    (∀ f, List.find? (fun f => f.id == id) db.feeds = some f →
      (updateOne db id patch).1 = some (applyFeedUpdate f patch) ∧
      (patch.text = none → (applyFeedUpdate f patch).text = f.text) ∧
      (∀ t, patch.text = some t → (applyFeedUpdate f patch).text = t) ∧
      (patch.webhook = none →
        (applyFeedUpdate f patch).webhook = f.webhook) ∧
      (patch.webhook = some { id := "" } →
        (applyFeedUpdate f patch).webhook = none) ∧
      (∀ w, patch.webhook = some w → w.id ≠ "" →
        (applyFeedUpdate f patch).webhook = some w)) := by
  constructor
  · intro hnone
    unfold updateOne
    rw [hnone]
    exact ⟨rfl, rfl⟩
  · intro f hf
    refine ⟨?_, ?_, ?_, ?_, ?_, ?_⟩
    · unfold updateOne
      rw [hf]
    · intro ht
      cases hw : patch.webhook with
      | none => simp [applyFeedUpdate, ht, hw]
      | some w =>
          by_cases he : w.id = "" <;> simp [applyFeedUpdate, ht, hw, he]
    · intro t ht
      cases hw : patch.webhook with
      | none => simp [applyFeedUpdate, ht, hw]
      | some w =>
          by_cases he : w.id = "" <;> simp [applyFeedUpdate, ht, hw, he]
    · intro hw
      cases ht : patch.text <;> simp [applyFeedUpdate, ht, hw]
    · intro hw
      cases ht : patch.text <;> simp [applyFeedUpdate, ht, hw]
    · intro w hw he
      cases ht : patch.text <;> simp [applyFeedUpdate, ht, hw, he]

/-- The stored feed of the C7 witness. -/
def c7Feed : Feed :=
  { id := "f1", url := "u", text := "old-text",
    webhook := some { id := "old-webhook-id" } }

/-- The feeds-service state of the C7 witness. -/
def c7Db : FeedsDb := { feeds := [c7Feed], failRecords := fun _ => none }

/-- C7 witness: patching the stored feed with an empty-string webhook id and
no text removes the whole webhook object and leaves the text unchanged. -/
theorem updateOne_merge_semantics_witness :
    (updateOne c7Db "f1" { webhook := some { id := "" } }).1 =
      some (applyFeedUpdate c7Feed { webhook := some { id := "" } }) ∧
    (applyFeedUpdate c7Feed { webhook := some { id := "" } }).webhook =
      none ∧
    (applyFeedUpdate c7Feed { webhook := some { id := "" } }).text =
      "old-text" := by
  have h := (updateOne_merge_semantics c7Db "f1"
    { webhook := some { id := "" } }).2 c7Feed (by decide)
  exact ⟨h.1, h.2.2.2.2.1 rfl, h.2.1 rfl⟩

/-- C8: `refresh(id)` fails exactly when no subscription with that id exists;
otherwise it deletes any fail record keyed by the subscription's URL (leaving
all other fail records and the feed collection untouched) and returns the
entity with status OK, regardless of the fail record's age — in particular a
refresh of an already-OK subscription still succeeds with status OK. -/
theorem refresh_semantics (db : FeedsDb) (id : String) (now : Int) :
    (List.find? (fun f => f.id == id) db.feeds = none →
      refresh db id now = .error .feedNotFound) ∧
    (∀ f, List.find? (fun f => f.id == id) db.feeds = some f →
      refresh db id now =
        .ok ((f, .ok),
          { db with failRecords := deleteFailRecord db.failRecords f.url }) ∧
      deleteFailRecord db.failRecords f.url f.url = none ∧
      (∀ url, url ≠ f.url →
        deleteFailRecord db.failRecords f.url url = db.failRecords url)) := by
  constructor
  · intro hnone
    unfold refresh
    rw [hnone]
  · intro f hf
    refine ⟨?_, ?_, ?_⟩
    · unfold refresh
      rw [hf]
      have hnone : deleteFailRecord db.failRecords f.url f.url = none := by
        unfold deleteFailRecord
        simp
      dsimp only
      rw [show deriveFeedStatus (deleteFailRecord db.failRecords f.url)
            f.url now = .ok from by unfold deriveFeedStatus; rw [hnone]]
    · unfold deleteFailRecord
      simp
    · intro url hne
      unfold deleteFailRecord
      simp [hne]

/-- The subscription of the C8 witness. -/
def c8Feed : Feed := { id := "f1", url := "u" }

/-- The feeds-service state of the C8 witness: the subscription plus a fail
record for its URL that is far older than the 18-hour threshold. -/
def c8Db : FeedsDb :=
  { feeds := [c8Feed],
    failRecords := fun url =>
      if url == "u" then
        some { reason := "reason", alerted := true, failedAt := 0 }
      else none }

/-- C8 witness: refreshing the subscription deletes its (very old) fail
record and returns status OK. -/
theorem refresh_semantics_witness :
    refresh c8Db "f1" 1000000 =
      .ok ((c8Feed, .ok),
        { c8Db with
          failRecords := deleteFailRecord c8Db.failRecords "u" }) ∧
    deleteFailRecord c8Db.failRecords "u" "u" = none := by
  have h := (refresh_semantics c8Db "f1" 1000000).2 c8Feed (by decide)
  exact ⟨h.1, h.2.1⟩

/-- C2: `createDiscordWebhookConnection` evaluates the four verification
checks in the order existence, type, ownership, actor-permission; a failure
at step k raises the corresponding named failure kind and stops — the
recorded evaluation trace contains exactly the first k checks — and the feed
store is unchanged (no connection is persisted). -/
theorem createWebhookConn_check_order (env : DiscordEnv) (store : FeedStore)
    (input : CreateWebhookConnInput) (connectionId : String) :
    (env.getWebhook input.webhookId = none →
      createDiscordWebhookConnection env store input connectionId =
        (.error .webhookNonexistent, store, [.existence])) ∧
    (∀ w, env.getWebhook input.webhookId = some w →
      (w.kindUsableByBot = false →
        createDiscordWebhookConnection env store input connectionId =
          (.error .webhookInvalidType, store,
            [.existence, .webhookType])) ∧
      (w.kindUsableByBot = true → w.guild_id ≠ input.guildId →
        createDiscordWebhookConnection env store input connectionId =
          (.error .webhookNotOwned, store,
            [.existence, .webhookType, .ownership])) ∧
      (w.kindUsableByBot = true → w.guild_id = input.guildId →
        env.userManagesGuild input.accessToken input.guildId = false →
        createDiscordWebhookConnection env store input connectionId =
          (.error .webhookMissingUserPerm, store,
            [.existence, .webhookType, .ownership, .userPermission]))) := by
  constructor
  · intro hnone
    unfold createDiscordWebhookConnection
    rw [hnone]
  · intro w hw
    refine ⟨?_, ?_, ?_⟩
    · intro hbot
      unfold createDiscordWebhookConnection
      rw [hw]
      simp [hbot]
    · intro hbot hne
      unfold createDiscordWebhookConnection
      rw [hw]
      simp [hbot, hne]
    · intro hbot hown hperm
      unfold createDiscordWebhookConnection
      rw [hw]
      simp [hbot, hown, hperm]

/-- The feed store of the C2 witness. -/
def c2Store : FeedStore := [{ id := "feed-1", url := "u", guild := "g" }]

/-- A C2 witness environment whose webhook lookup finds nothing. -/
def c2EnvNone : DiscordEnv :=
  { canUseChannel := fun _ _ => .apiError 500,
    getWebhook := fun _ => none,
    userManagesGuild := fun _ _ => true }

/-- The webhook of the C2 witness environment that fails the ownership
check. -/
def c2Webhook : DiscordWebhook :=
  { id := "w1", guild_id := "other-guild", token := "tok",
    kindUsableByBot := true }

/-- A C2 witness environment whose webhook exists and is usable by the bot
but belongs to a different guild. -/
def c2EnvNotOwned : DiscordEnv :=
  { canUseChannel := fun _ _ => .apiError 500,
    getWebhook := fun _ => some c2Webhook,
    userManagesGuild := fun _ _ => true }

/-- The input of the C2 witness. -/
def c2Input : CreateWebhookConnInput :=
  { accessToken := "t", feedId := "feed-1", guildId := "g", name := "n",
    webhookId := "w1" }

/-- C2 witness: a nonexistent webhook fails at step 1 having evaluated only
the existence check; an existing usable webhook of another guild fails at
step 3 having evaluated exactly the first three checks; both leave the store
unchanged. -/
theorem createWebhookConn_check_order_witness :
    createDiscordWebhookConnection c2EnvNone c2Store c2Input "c1" =
      (.error .webhookNonexistent, c2Store, [.existence]) ∧
    createDiscordWebhookConnection c2EnvNotOwned c2Store c2Input "c1" =
      (.error .webhookNotOwned, c2Store,
        [.existence, .webhookType, .ownership]) := by
  refine ⟨(createWebhookConn_check_order c2EnvNone c2Store c2Input "c1").1
    rfl, ?_⟩
  exact (((createWebhookConn_check_order c2EnvNotOwned c2Store c2Input
    "c1").2 c2Webhook rfl).2.1) rfl (by decide)

/-- C3: for every channel-connection create, a fetched channel whose guild
differs from the requested guild fails with the channel-not-owned error and
leaves the feed store unchanged (no connection is persisted); a remote
not-found error is mapped to the missing-channel error, a remote forbidden
error to the channel-permissions error, and any other remote failure
propagates unchanged — all without touching the store. -/
theorem createChannelConn_verifier_failures (env : DiscordEnv)
    (store : FeedStore) (input : CreateChannelConnInput)
    (connectionId : String) :
    (∀ c, env.canUseChannel input.userAccessToken input.channelId =
        .success c → c.guild_id ≠ input.guildId →
      createDiscordChannelConnection env store input connectionId =
        (.error .discordChannelNotOwned, store)) ∧
    (env.canUseChannel input.userAccessToken input.channelId =
        .apiError httpNotFound →
      createDiscordChannelConnection env store input connectionId =
        (.error .missingDiscordChannel, store)) ∧
    (env.canUseChannel input.userAccessToken input.channelId =
        .apiError httpForbidden →
      createDiscordChannelConnection env store input connectionId =
        (.error .discordChannelPermissions, store)) ∧
    (∀ code, env.canUseChannel input.userAccessToken input.channelId =
        .apiError code → code ≠ httpNotFound → code ≠ httpForbidden →
      createDiscordChannelConnection env store input connectionId =
        (.error (.discordAPIError code), store)) ∧
    (∀ tag, env.canUseChannel input.userAccessToken input.channelId =
        .otherFailure tag →
      createDiscordChannelConnection env store input connectionId =
        (.error (.otherFailure tag), store)) := by
  refine ⟨?_, ?_, ?_, ?_, ?_⟩
  · intro c hc hne
    unfold createDiscordChannelConnection assertDiscordChannelCanBeUsed
    rw [hc]
    simp [hne]
  · intro hc
    unfold createDiscordChannelConnection assertDiscordChannelCanBeUsed
    rw [hc]
    simp
  · intro hc
    unfold createDiscordChannelConnection assertDiscordChannelCanBeUsed
    rw [hc]
    simp [httpNotFound, httpForbidden]
  · intro code hc hnf hfb
    unfold createDiscordChannelConnection assertDiscordChannelCanBeUsed
    rw [hc]
    simp [hnf, hfb]
  · intro tag hc
    unfold createDiscordChannelConnection assertDiscordChannelCanBeUsed
    rw [hc]

/-- The feed store of the C3 witness. -/
def c3Store : FeedStore := [{ id := "feed-1", url := "u", guild := "g" }]

/-- The C3 witness environment: the channel fetch succeeds but the channel
belongs to another guild. -/
def c3Env : DiscordEnv :=
  { canUseChannel := fun _ _ => .success { id := "ch", guild_id := "other" },
    getWebhook := fun _ => none,
    userManagesGuild := fun _ _ => true }

/-- The input of the C3 witness. -/
def c3Input : CreateChannelConnInput :=
  { feedId := "feed-1", name := "n", channelId := "ch",
    userAccessToken := "t", guildId := "g" }

/-- The stored connection of the C5 witness. -/
def c5Conn : DiscordChannelConnection :=
  { id := "c1", name := "old-name", filters := some (.expr "f-old"),
    details := { channel := { id := "ch-old" }, content := some "old-content",
                 embeds := ["e1"] } }

/-- The feed document of the C5 witness. -/
def c5FeedDoc : Feed :=
  { id := "feed-1", url := "u", guild := "g",
    connections := { discordChannels := [c5Conn] } }

/-- The feed store of the C5 witness. -/
def c5Store : FeedStore := [c5FeedDoc]

/-- The patch of the C5 witness: only `details.content` is provided. -/
def c5Updates : UpdateChannelConnUpdates :=
  { details := some { content := some "new-content" } }

/-- The stored connection of the C10 witness. -/
def c10Conn : DiscordChannelConnection :=
  { id := "c1", name := "old-name", filters := some (.expr "f-old"),
    details := { channel := { id := "ch" } } }

/-- The patch of the C10 witness: an explicitly provided empty-string name
and an explicitly provided null filters value. -/
def c10Updates : UpdateChannelConnUpdates :=
  { filters := some .jsNull, name := some "" }

/-- The environment of the C9 witness (never consulted: the patch carries no
destination). -/
def c9Env : DiscordEnv :=
  { canUseChannel := fun _ _ => .apiError 500,
    getWebhook := fun _ => none,
    userManagesGuild := fun _ _ => true }

/-- The input of the C9 witness: an empty patch. -/
def c9Input : UpdateChannelConnInput :=
  { accessToken := "t", updates := {}, guildId := "g" }

/-- The C4 witness environment: channels "ch-old" and "ch-new" exist and
belong to guild "g"; everything else is not found. -/
def c4Env : DiscordEnv :=
  { canUseChannel := fun _ chId =>
      if chId == "ch-new" || chId == "ch-old" then
        .success { id := chId, guild_id := "g" }
      else .apiError 404,
    getWebhook := fun _ => none,
    userManagesGuild := fun _ _ => true }

/-- The stored connection of the C4 witness, pointing at "ch-old". -/
def c4Conn : DiscordChannelConnection :=
  { id := "c1", name := "n", details := { channel := { id := "ch-old" } } }

/-- The feed document of the C4 witness, owned by guild "g". -/
def c4Feed : Feed :=
  { id := "feed-1", url := "u", guild := "g",
    connections := { discordChannels := [c4Conn] } }

/-- The feed store of the C4 witness. -/
def c4Store : FeedStore := [c4Feed]

/-- The C4 witness input that moves the connection to "ch-new". -/
def c4Input : UpdateChannelConnInput :=
  { accessToken := "t",
    updates := { details := some { channel := some { id := "ch-new" } } },
    guildId := "g" }

/-- The C4 witness input that renames the connection without changing the
destination. -/
def c4InputNoChan : UpdateChannelConnInput :=
  { accessToken := "t", updates := { name := some "n2" }, guildId := "g" }

/-! ## Theorems -/

/-- C3 witness: creating a channel connection against a channel of another
guild fails with the channel-not-owned error and leaves the store (hence the
feed's connection list) unchanged. -/
theorem createChannelConn_verifier_failures_witness :
    createDiscordChannelConnection c3Env c3Store c3Input "c1" =
      (.error .discordChannelNotOwned, c3Store) :=
  (createChannelConn_verifier_failures c3Env c3Store c3Input "c1").1
    { id := "ch", guild_id := "other" } rfl (by decide)

/-! ### Helper lemmas about the conditional-update primitive -/

/-- An element of `updateFirst p u l` is an old element of `l` or the image
under `u` of an element of `l` satisfying `p`. -/
theorem updateFirst_mem {α : Type} {p : α → Bool} {u : α → α} {l : List α}
    {x : α} (hx : x ∈ updateFirst p u l) :
    x ∈ l ∨ ∃ y, y ∈ l ∧ p y = true ∧ x = u y := by
  induction l with
  | nil => simp [updateFirst] at hx
  | cons a as ih =>
      rw [show updateFirst p u (a :: as) =
          if p a then u a :: as else a :: updateFirst p u as from rfl] at hx
      by_cases hpa : p a = true
      · rw [if_pos hpa] at hx
        rcases List.mem_cons.mp hx with h | h
        · exact Or.inr ⟨a, List.mem_cons_self a as, hpa, h⟩
        · exact Or.inl (List.mem_cons_of_mem a h)
      · rw [if_neg (by simpa using hpa)] at hx
        rcases List.mem_cons.mp hx with h | h
        · exact Or.inl (by rw [h]; exact List.mem_cons_self a as)
        · rcases ih h with h' | ⟨y, hy, hpy, hxy⟩
          · exact Or.inl (List.mem_cons_of_mem a h')
          · exact Or.inr ⟨y, List.mem_cons_of_mem a hy, hpy, hxy⟩

/-- When `u` preserves `p`, the first `p`-element after `updateFirst p u` is
the image under `u` of the first `p`-element before. -/
theorem find?_updateFirst {α : Type} (p : α → Bool) (u : α → α)
    (hp : ∀ x, p (u x) = p x) (l : List α) :
    List.find? p (updateFirst p u l) = (List.find? p l).map u := by
  induction l with
  | nil => rfl
  | cons a as ih =>
      by_cases hpa : p a = true
      · rw [show updateFirst p u (a :: as) =
            if p a then u a :: as else a :: updateFirst p u as from rfl,
          if_pos hpa, List.find?_cons_of_pos _ ((hp a).trans hpa),
          List.find?_cons_of_pos _ hpa, Option.map_some']
      · have hpa' : p a = false := by simpa using hpa
        rw [show updateFirst p u (a :: as) =
            if p a then u a :: as else a :: updateFirst p u as from rfl,
          if_neg (by simp [hpa']), List.find?_cons_of_neg _ (by simp [hpa']),
          List.find?_cons_of_neg _ (by simp [hpa']), ih]

/-- The merge of `updateDiscordChannelConnection` never changes the
connection id, so the post-write positional lookup matches the merged
connection. -/
theorem connMatches_applyConnUpdates (connectionId : String)
    (updates : UpdateChannelConnUpdates) (c : DiscordChannelConnection) :
    connMatches connectionId (applyConnUpdates c updates) =
      connMatches connectionId c := rfl

/-- A successful channel verification means the fetch succeeded and the
returned channel's guild is the expected one. -/
theorem assertChannel_ok_owned {env : DiscordEnv}
    {token chId guildId : String} {c : DiscordChannel}
    (h : assertDiscordChannelCanBeUsed env token chId guildId = .ok c) :
    channelOwnedBy env token guildId chId := by
  unfold assertDiscordChannelCanBeUsed at h
  cases hf : env.canUseChannel token chId with
  | success c' =>
      rw [hf] at h
      dsimp only at h
      by_cases hne : c'.guild_id ≠ guildId
      · rw [if_pos hne] at h
        exact Except.noConfusion h
      · push_neg at hne
        exact ⟨c', hf, hne⟩
  | apiError code =>
      rw [hf] at h
      dsimp only at h
      split at h
      · exact Except.noConfusion h
      · split at h <;> exact Except.noConfusion h
  | otherFailure tag =>
      rw [hf] at h
      exact Except.noConfusion h

/-- The store component of `runChannelConnUpdate` is the store component of
the underlying conditional update. -/
theorem runChannelConnUpdate_snd (store : FeedStore)
    (feedId connectionId : String) (updates : UpdateChannelConnUpdates) :
    (runChannelConnUpdate store feedId connectionId updates).2 =
      (findOneAndUpdate (feedConnQuery feedId connectionId)
        (connUpdateDoc connectionId updates) store).2 := by
  unfold runChannelConnUpdate
  rcases h : findOneAndUpdate (feedConnQuery feedId connectionId)
      (connUpdateDoc connectionId updates) store with ⟨updated, store'⟩
  dsimp only
  cases updated.bind (fun f =>
      List.find? (connMatches connectionId)
        f.connections.discordChannels) <;> rfl

/-- C5: for every `patchConnection` / `updateDiscordChannelConnection`
merge, every field absent from the patch — `filters`, `name`, and each nested
details key — keeps its stored value unchanged; only the provided details
keys are written and only provided (truthy) `filters`/`name` values replace
the stored ones; and the operation writes exactly this merge of the stored
connection (the connection id is never changed). -/
theorem patchConnection_frame (conn : DiscordChannelConnection)
    (connectionId : String) (updates : UpdateChannelConnUpdates) :
    (applyConnUpdates conn updates).id = conn.id ∧
    (updates.filters = none →
      (applyConnUpdates conn updates).filters = conn.filters) ∧
    (updates.name = none →
      (applyConnUpdates conn updates).name = conn.name) ∧
    (updates.details = none →
      (applyConnUpdates conn updates).details = conn.details) ∧
    (∀ dp, updates.details = some dp →
      (dp.channel = none →
        (applyConnUpdates conn updates).details.channel =
          conn.details.channel) ∧
      (dp.content = none →
        (applyConnUpdates conn updates).details.content =
          conn.details.content) ∧
      (dp.embeds = none →
        (applyConnUpdates conn updates).details.embeds =
          conn.details.embeds) ∧
      (∀ ch, dp.channel = some ch →
        (applyConnUpdates conn updates).details.channel = ch) ∧
      (∀ ct, dp.content = some ct →
        (applyConnUpdates conn updates).details.content = some ct) ∧
      (∀ es, dp.embeds = some es →
        (applyConnUpdates conn updates).details.embeds = es)) ∧
    (∀ v, updates.filters = some v → v.truthy = true →
      (applyConnUpdates conn updates).filters = some v) ∧
    (∀ s, updates.name = some s → s ≠ "" →
      (applyConnUpdates conn updates).name = s) ∧
    (∀ (store : FeedStore) (feedId : String) (f : Feed),
      List.find? (feedConnQuery feedId connectionId) store = some f →
      List.find? (connMatches connectionId)
        f.connections.discordChannels = some conn →
      (runChannelConnUpdate store feedId connectionId updates).1 =
        .ok (applyConnUpdates conn updates)) := by
  refine ⟨rfl, ?_, ?_, ?_, ?_, ?_, ?_, ?_⟩
  · intro hf
    simp [applyConnUpdates, hf]
  · intro hn
    simp [applyConnUpdates, hn]
  · intro hd
    simp [applyConnUpdates, applyDetailsPatch, hd]
  · intro dp hd
    refine ⟨?_, ?_, ?_, ?_, ?_, ?_⟩
    · intro ha
      simp [applyConnUpdates, applyDetailsPatch, hd, ha]
    · intro ha
      simp [applyConnUpdates, applyDetailsPatch, hd, ha]
    · intro ha
      simp [applyConnUpdates, applyDetailsPatch, hd, ha]
    · intro ch ha
      simp [applyConnUpdates, applyDetailsPatch, hd, ha]
    · intro ct ha
      simp [applyConnUpdates, applyDetailsPatch, hd, ha]
    · intro es ha
      simp [applyConnUpdates, applyDetailsPatch, hd, ha]
  · intro v hv ht
    simp [applyConnUpdates, hv, ht]
  · intro s hs hne
    simp [applyConnUpdates, hs, hne]
  · intro store feedId f hfind hconn
    unfold runChannelConnUpdate findOneAndUpdate
    rw [hfind]
    dsimp only [Option.bind]
    rw [show (connUpdateDoc connectionId updates f).connections.discordChannels
        = updateFirst (connMatches connectionId)
            (fun c => applyConnUpdates c updates)
            f.connections.discordChannels from rfl,
      find?_updateFirst (connMatches connectionId)
        (fun c => applyConnUpdates c updates) (fun _ => rfl)
        f.connections.discordChannels,
      hconn, Option.map_some']

/-- C5 witness: a patch providing only `details.content` leaves `name`,
`filters`, `details.channel` and `details.embeds` unchanged, writes the new
content, and the conditional update returns exactly this merge. -/
theorem patchConnection_frame_witness :
    (applyConnUpdates c5Conn c5Updates).name = "old-name" ∧
    (applyConnUpdates c5Conn c5Updates).filters = some (.expr "f-old") ∧
    (applyConnUpdates c5Conn c5Updates).details.channel = { id := "ch-old" } ∧
    (applyConnUpdates c5Conn c5Updates).details.embeds = ["e1"] ∧
    (applyConnUpdates c5Conn c5Updates).details.content =
      some "new-content" ∧
    (runChannelConnUpdate c5Store "feed-1" "c1" c5Updates).1 =
      .ok (applyConnUpdates c5Conn c5Updates) := by
  have h := patchConnection_frame c5Conn "c1" c5Updates
  have hdp := h.2.2.2.2.1 { content := some "new-content" } rfl
  exact ⟨h.2.2.1 rfl, h.2.1 rfl, hdp.1 rfl, hdp.2.2.1 rfl,
    hdp.2.2.2.2.1 "new-content" rfl,
    h.2.2.2.2.2.2.2 c5Store "feed-1" c5FeedDoc (by decide) (by decide)⟩

/-- C10: a provided empty-string `updates.name` and a provided falsy
`updates.filters` behave exactly like absent fields — the corresponding
`$set` entries are spread away and the stored name/filters remain
unchanged. -/
theorem updateChannelConn_falsy_updates_ignored
    (conn : DiscordChannelConnection) (updates : UpdateChannelConnUpdates) :
    (updates.name = some "" →
      (applyConnUpdates conn updates).name = conn.name) ∧
    (∀ v, updates.filters = some v → v.truthy = false →
      (applyConnUpdates conn updates).filters = conn.filters) := by
  constructor
  · intro hn
    simp [applyConnUpdates, hn]
  · intro v hv ht
    simp [applyConnUpdates, hv, ht]

/-- C10 witness: patching with name `""` and filters `null` leaves the
stored name and filters unchanged. -/
theorem updateChannelConn_falsy_updates_ignored_witness :
    (applyConnUpdates c10Conn c10Updates).name = "old-name" ∧
    (applyConnUpdates c10Conn c10Updates).filters = some (.expr "f-old") := by
  have h := updateChannelConn_falsy_updates_ignored c10Conn c10Updates
  exact ⟨h.1 rfl, h.2 .jsNull rfl rfl⟩

/-- C9: when no stored feed matches both the feed id and the connection id,
the conditional update matches nothing and `updateDiscordChannelConnection`
fails with the same generic internal error (the exact
`Connection was not successfuly updated...` message) that signals a
post-write storage inconsistency — not a distinct not-exists failure — and
the store is unchanged. This holds both when the patch carries no
destination and when it carries one that passes verification. -/
theorem updateChannelConn_missing_target_generic_error
    (env : DiscordEnv) (store : FeedStore) (feedId connectionId : String)
    (input : UpdateChannelConnInput)
    (hnomatch : List.find? (feedConnQuery feedId connectionId) store = none) :
    runChannelConnUpdate store feedId connectionId input.updates =
      (.error (.internalError updateFailureMessage), store) ∧
    (input.updates.details.bind (fun d => d.channel) = none →
      updateDiscordChannelConnection env store feedId connectionId input =
        (.error (.internalError updateFailureMessage), store, false)) ∧
    (∀ ref c, input.updates.details.bind (fun d => d.channel) = some ref →
      assertDiscordChannelCanBeUsed env input.accessToken ref.id
        input.guildId = .ok c →
      updateDiscordChannelConnection env store feedId connectionId input =
        (.error (.internalError updateFailureMessage), store, true)) := by
  have hrun : runChannelConnUpdate store feedId connectionId input.updates =
      (.error (.internalError updateFailureMessage), store) := by
    unfold runChannelConnUpdate findOneAndUpdate
    rw [hnomatch]
    rfl
  refine ⟨hrun, ?_, ?_⟩
  · intro hb
    unfold updateDiscordChannelConnection
    rw [hb, hrun]
  · intro ref c hb hok
    unfold updateDiscordChannelConnection
    rw [hb]
    dsimp only
    rw [hok, hrun]

/-- C9 witness: an empty-patch update against an empty store fails with the
generic internal update error. -/
theorem updateChannelConn_missing_target_generic_error_witness :
    updateDiscordChannelConnection c9Env [] "feed-1" "c1" c9Input =
      (.error (.internalError updateFailureMessage), [], false) :=
  (updateChannelConn_missing_target_generic_error c9Env [] "feed-1" "c1"
    c9Input rfl).2.1 rfl

/-- The store component of `createDiscordChannelConnection`: unchanged on
verification failure, otherwise the store component of the `$push`
conditional update. -/
theorem createChannelConn_store_eq (env : DiscordEnv) (store : FeedStore)
    (input : CreateChannelConnInput) (connectionId : String) :
    (createDiscordChannelConnection env store input connectionId).2 =
      match assertDiscordChannelCanBeUsed env input.userAccessToken
          input.channelId input.guildId with
      | .error _ => store
      | .ok _ => (findOneAndUpdate (fun f => f.id == input.feedId)
          (pushChannelConn (newChannelConn input connectionId)) store).2 := by
  unfold createDiscordChannelConnection
  cases hassert : assertDiscordChannelCanBeUsed env input.userAccessToken
      input.channelId input.guildId with
  | error e => rfl
  | ok c =>
      dsimp only
      rcases h : findOneAndUpdate (fun f => f.id == input.feedId)
          (pushChannelConn (newChannelConn input connectionId)) store with
        ⟨updated, store'⟩
      dsimp only
      cases updated.bind (fun f =>
          List.find? (connMatches connectionId)
            f.connections.discordChannels) <;> rfl

/-- The store component of `updateDiscordChannelConnection`: unchanged on
verification failure, otherwise the store component of the conditional
update. -/
theorem updateChannelConn_store_eq (env : DiscordEnv) (store : FeedStore)
    (feedId connectionId : String) (input : UpdateChannelConnInput) :
    (updateDiscordChannelConnection env store feedId connectionId input).2.1 =
      match input.updates.details.bind (fun d => d.channel) with
      | none => (runChannelConnUpdate store feedId connectionId
          input.updates).2
      | some ref =>
          match assertDiscordChannelCanBeUsed env input.accessToken ref.id
              input.guildId with
          | .error _ => store
          | .ok _ => (runChannelConnUpdate store feedId connectionId
              input.updates).2 := by
  unfold updateDiscordChannelConnection
  cases hb : input.updates.details.bind (fun d => d.channel) with
  | none =>
      dsimp only
  | some ref =>
      dsimp only
      cases hassert : assertDiscordChannelCanBeUsed env input.accessToken
          ref.id input.guildId with
      | error e => rfl
      | ok c =>
          dsimp only

/-- After the conditional update of `updateDiscordChannelConnection`, every
feed's channel connections still point at destinations owned by the feed's
guild, provided any newly set destination was verified for the guild that
owns the target feed. -/
theorem connsOwned_after_runUpdate
    (env : DiscordEnv) (token guildId : String) (store : FeedStore)
    (feedId connectionId : String) (updates : UpdateChannelConnUpdates)
    (hnew : ∀ ref, updates.details.bind (fun d => d.channel) = some ref →
      channelOwnedBy env token guildId ref.id)
    (howned : ∀ f ∈ store, feedConnsOwned env token f)
    (hguild : ∀ f ∈ store, f.id = feedId → f.guild = guildId) :
    ∀ f ∈ (runChannelConnUpdate store feedId connectionId updates).2,
      feedConnsOwned env token f := by
  intro f hf
  rw [runChannelConnUpdate_snd] at hf
  unfold findOneAndUpdate at hf
  cases hfind : List.find? (feedConnQuery feedId connectionId) store with
  | none =>
      rw [hfind] at hf
      exact howned f hf
  | some f0 =>
      rw [hfind] at hf
      dsimp only at hf
      rcases updateFirst_mem hf with hmem | ⟨y, hy, hpy, hfy⟩
      · exact howned f hmem
      · subst hfy
        intro conn hconn
        rw [show (connUpdateDoc connectionId updates y).connections.discordChannels
            = updateFirst (connMatches connectionId)
                (fun c => applyConnUpdates c updates)
                y.connections.discordChannels from rfl] at hconn
        rw [show (connUpdateDoc connectionId updates y).guild = y.guild
            from rfl]
        rcases updateFirst_mem hconn with hmem | ⟨c0, hc0, hpc0, hceq⟩
        · exact howned y hy conn hmem
        · subst hceq
          cases hch : updates.details.bind (fun d => d.channel) with
          | none =>
              rw [show (applyConnUpdates c0 updates).details.channel =
                  c0.details.channel from by
                cases hd : updates.details with
                | none => simp [applyConnUpdates, applyDetailsPatch, hd]
                | some dp =>
                    rw [hd] at hch
                    simp only [Option.some_bind] at hch
                    simp [applyConnUpdates, applyDetailsPatch, hd, hch]]
              exact howned y hy c0 hc0
          | some ref =>
              rw [show (applyConnUpdates c0 updates).details.channel = ref
                  from by
                cases hd : updates.details with
                | none => rw [hd] at hch; exact Option.noConfusion hch
                | some dp =>
                    rw [hd] at hch
                    simp only [Option.some_bind] at hch
                    simp [applyConnUpdates, applyDetailsPatch, hd, hch]]
              rw [show y.guild = guildId from by
                unfold feedConnQuery at hpy
                rw [Bool.and_eq_true] at hpy
                exact hguild y hy (by simpa using hpy.1)]
              exact hnew ref hch

/-- After `createDiscordChannelConnection`, every feed's channel connections
still point at destinations owned by the feed's guild: the appended
connection's destination was just verified for the guild owning the target
feed, and all other connections are untouched. -/
theorem connsOwned_after_create
    (env : DiscordEnv) (store : FeedStore) (input : CreateChannelConnInput)
    (connectionId : String)
    (howned : ∀ f ∈ store, feedConnsOwned env input.userAccessToken f)
    (hguild : ∀ f ∈ store, f.id = input.feedId → f.guild = input.guildId) :
    ∀ f ∈ (createDiscordChannelConnection env store input connectionId).2,
      feedConnsOwned env input.userAccessToken f := by
  intro f hf
  rw [createChannelConn_store_eq] at hf
  cases hassert : assertDiscordChannelCanBeUsed env input.userAccessToken
      input.channelId input.guildId with
  | error e =>
      rw [hassert] at hf
      exact howned f hf
  | ok c =>
      rw [hassert] at hf
      dsimp only at hf
      unfold findOneAndUpdate at hf
      cases hfind : List.find? (fun f => f.id == input.feedId) store with
      | none =>
          rw [hfind] at hf
          exact howned f hf
      | some f0 =>
          rw [hfind] at hf
          dsimp only at hf
          rcases updateFirst_mem hf with hmem | ⟨y, hy, hpy, hfy⟩
          · exact howned f hmem
          · subst hfy
            intro conn hconn
            rw [show (pushChannelConn (newChannelConn input connectionId)
                y).connections.discordChannels =
              y.connections.discordChannels ++
                [newChannelConn input connectionId] from rfl] at hconn
            rw [show (pushChannelConn (newChannelConn input connectionId)
                y).guild = y.guild from rfl]
            rcases List.mem_append.mp hconn with hmem | hnewc
            · exact howned y hy conn hmem
            · rw [List.mem_singleton.mp hnewc]
              rw [show (newChannelConn input connectionId).details.channel.id
                  = input.channelId from rfl]
              rw [show y.guild = input.guildId from
                hguild y hy (by simpa using hpy)]
              exact assertChannel_ok_owned hassert

/-- C4: `updateDiscordChannelConnection` re-runs channel verification
against the new destination and the provided (existing) guild id exactly when
the patch contains a destination — a patch without one performs no
verification — and a verification failure aborts before any mutation. As a
consequence, if every feed's channel connections point at destinations owned
by the feed's guild and the caller passes the owning guild of the target
feed, this invariant still holds for every feed after the update, and
likewise after every `createDiscordChannelConnection`. -/
theorem updateChannelConn_verification_and_group_invariant
    (env : DiscordEnv) (store : FeedStore) (feedId connectionId : String)
    (input : UpdateChannelConnInput) :
    (input.updates.details.bind (fun d => d.channel) = none →
      (updateDiscordChannelConnection env store feedId connectionId
        input).2.2 = false) ∧
    (∀ ref, input.updates.details.bind (fun d => d.channel) = some ref →
      (updateDiscordChannelConnection env store feedId connectionId
        input).2.2 = true ∧
      (∀ e, assertDiscordChannelCanBeUsed env input.accessToken ref.id
          input.guildId = .error e →
        updateDiscordChannelConnection env store feedId connectionId input =
          (.error e, store, true))) ∧
    ((∀ f ∈ store, feedConnsOwned env input.accessToken f) →
      (∀ f ∈ store, f.id = feedId → f.guild = input.guildId) →
      ∀ f ∈ (updateDiscordChannelConnection env store feedId connectionId
          input).2.1,
        feedConnsOwned env input.accessToken f) ∧
    (∀ (cinput : CreateChannelConnInput) (cid : String),
      (∀ f ∈ store, feedConnsOwned env cinput.userAccessToken f) →
      (∀ f ∈ store, f.id = cinput.feedId → f.guild = cinput.guildId) →
      ∀ f ∈ (createDiscordChannelConnection env store cinput cid).2,
        feedConnsOwned env cinput.userAccessToken f) := by
  refine ⟨?_, ?_, ?_, ?_⟩
  · intro hb
    unfold updateDiscordChannelConnection
    rw [hb]
  · intro ref hb
    constructor
    · unfold updateDiscordChannelConnection
      rw [hb]
      dsimp only
      cases hassert : assertDiscordChannelCanBeUsed env input.accessToken
          ref.id input.guildId with
      | error e => rfl
      | ok c =>
          dsimp only
    · intro e hassert
      unfold updateDiscordChannelConnection
      rw [hb]
      dsimp only
      rw [hassert]
  · intro howned hguild f hf
    rw [updateChannelConn_store_eq] at hf
    cases hb : input.updates.details.bind (fun d => d.channel) with
    | none =>
        rw [hb] at hf
        exact connsOwned_after_runUpdate env input.accessToken input.guildId
          store feedId connectionId input.updates
          (fun ref href => absurd (hb ▸ href) (by simp)) howned hguild f hf
    | some ref =>
        rw [hb] at hf
        dsimp only at hf
        cases hassert : assertDiscordChannelCanBeUsed env input.accessToken
            ref.id input.guildId with
        | error e =>
            rw [hassert] at hf
            exact howned f hf
        | ok c =>
            rw [hassert] at hf
            refine connsOwned_after_runUpdate env input.accessToken
              input.guildId store feedId connectionId input.updates
              ?_ howned hguild f hf
            intro ref' href'
            rw [hb] at href'
            cases Option.some.inj href'
            exact assertChannel_ok_owned hassert
  · intro cinput cid howned hguild
    exact connsOwned_after_create env store cinput cid howned hguild

/-- C4 witness: a patch without a destination sets no verification flag; a
patch moving the connection to a verified channel of the owning guild sets
it, and the updated feed still satisfies the ownership invariant. -/
theorem updateChannelConn_verification_and_group_invariant_witness :
    (updateDiscordChannelConnection c4Env c4Store "feed-1" "c1"
      c4InputNoChan).2.2 = false ∧
    (updateDiscordChannelConnection c4Env c4Store "feed-1" "c1"
      c4Input).2.2 = true ∧
    feedConnsOwned c4Env "t" (connUpdateDoc "c1" c4Input.updates c4Feed) := by
  have howned : ∀ f ∈ c4Store, feedConnsOwned c4Env "t" f := by
    intro f hf
    rw [show c4Store = [c4Feed] from rfl, List.mem_singleton] at hf
    subst hf
    intro conn hconn
    rw [show c4Feed.connections.discordChannels = [c4Conn] from rfl,
      List.mem_singleton] at hconn
    subst hconn
    exact ⟨{ id := "ch-old", guild_id := "g" }, by decide, rfl⟩
  have hguild : ∀ f ∈ c4Store, f.id = "feed-1" → f.guild = "g" := by
    intro f hf _
    rw [show c4Store = [c4Feed] from rfl, List.mem_singleton] at hf
    subst hf
    rfl
  refine ⟨?_, ?_, ?_⟩
  · exact (updateChannelConn_verification_and_group_invariant c4Env c4Store
      "feed-1" "c1" c4InputNoChan).1 rfl
  · exact ((updateChannelConn_verification_and_group_invariant c4Env c4Store
      "feed-1" "c1" c4Input).2.1 { id := "ch-new" } rfl).1
  · exact (updateChannelConn_verification_and_group_invariant c4Env c4Store
      "feed-1" "c1" c4Input).2.2.1 howned hguild
      (connUpdateDoc "c1" c4Input.updates c4Feed) (by decide)

end MonitoRSS
